import Mathlib

/-!
Verification development for the FiberStack-Lite ingestion and processing
spine.  Each subsystem named in the claims is shallowly embedded:

* `FiberStack.Gateway`  — `src/fiber-api/src/routes.py`, `ingest_batch`
* `FiberStack.Etl`      — `src/fiber-etl/src/worker.py`, `dedupe_batch` and
  the bulk-insert/conflict-audit stage of `process_batch`
* `FiberStack.Audit`    — `src/fiber-api/src/audit.py`
* `FiberStack.Failover` — `src/fiber-probe/src/failover.py`
* `FiberStack.Client`   — `src/fiber-probe/src/client.py`, `push_batch`
* `FiberStack.Aggregate`— `src/fiber-api/src/aggregate_service.py`
* `FiberStack.Buffer`   — `src/fiber-probe/src/buffer.py`

Machine-level conventions: wall-clock and monotonic instants are modelled as
`Int` seconds (gateway, ETL TTLs) or `ℚ` seconds (monotonic clock, backoff
delays); Redis `SETEX`/`SET NX EX` keys are `(key, expiry)` pairs where a key
exists at `now` iff `now < expiry`; cryptographic primitives (SHA-256, HMAC)
are uninterpreted function parameters; Python string helpers used by the
sources (`lower`, `replace`, `split`, `take`) are re-implemented over the
character list of the string so that every definition kernel-evaluates.
-/

namespace FiberStack

/-- A `SETEX`-style key space: association list of key and absolute expiry
time.  `kv_exists` mirrors Redis `EXISTS`: a key is present at `now` iff it
was set with an expiry strictly in the future. -/
def kv_exists (kv : List (String × Int)) (now : Int) (k : String) : Bool :=
  kv.any (fun p => p.1 == k && decide (now < p.2))

/-- Redis `SETEX key ttl v`: record the key with absolute expiry `now + ttl`. -/
def kv_setex (kv : List (String × Int)) (now ttl : Int) (k : String) :
    List (String × Int) :=
  (k, now + ttl) :: kv

/-- Python `str.lower()` over the character list. -/
def pyLower (s : String) : String :=
  String.mk (s.data.map Char.toLower)

/-- Python `str.replace(old, new)` for a one-character pattern (the only
shape the sources use: `replace(" ", "-")`, `replace("Z", "+00:00")`). -/
def pyReplaceChar (old : Char) (new : List Char) (s : String) : String :=
  String.mk (s.data.foldr
    (fun c acc => if c = old then new ++ acc else c :: acc) [])

/-- Python `s[:n]`. -/
def pyTake (n : Nat) (s : String) : String :=
  String.mk (s.data.take n)

/-- Python `str.split(sep)` for a one-character separator, keeping empty
fields (so `"Bearer ".split(" ") = ["Bearer", ""]`). -/
def pySplitChar (sep : Char) (s : String) : List String :=
  (s.data.foldr
    (fun c acc =>
      match acc with
      | [] => [[c]]
      | g :: gs => if c = sep then [] :: (g :: gs) else (c :: g) :: gs)
    [[]]).map String.mk

end FiberStack

namespace FiberStack.Gateway

/-- The fields of `ProbeMetric` (src/fiber-api/src/models.py) that the
`/ingest` control flow reads: `node_id` (batch-consistency filter) and
`country`/`region` (region derivation).  The numeric fields ride along
opaquely in `model_dump` and are represented by the metric value itself. -/
structure Metric where
  node_id : String
  country : String
  region : String
  timestamp : String
deriving DecidableEq

/-- `BatchPayload` (src/fiber-api/src/models.py). -/
structure BatchPayload where
  node_id : String
  metrics : List Metric
deriving DecidableEq

/-- The request headers read by `ingest_batch`.  `none` models an absent
header. -/
structure IngestHeaders where
  signature : Option String
  timestamp : Option String
  nonce : Option String
  batchId : Option String
  regionId : Option String
  authorization : Option String
deriving DecidableEq

/-- Outcome of `jwt.decode` in the gateway (PyJWT abstracted): a token either
decodes, raises `ExpiredSignatureError`, or raises `InvalidTokenError`. -/
inductive JwtResult where
  | valid
  | expired
  | invalid
deriving DecidableEq

/-- Environment-derived configuration of `ingest_batch` plus the abstracted
impure helpers: ISO-8601 parsing (`datetime.fromisoformat` after the
`Z → +00:00` substitution, `none` = `ValueError`), body parsing
(`json.loads` + pydantic validation, `none` = 422), SHA-256 hex digest and
HMAC-SHA256 hex digest as uninterpreted functions, and JWT decoding. -/
structure GatewayEnv where
  legacySecret : String
  jwtPublicKey : String
  allowedRegions : List String
  nodeRole : String
  validationMode : String
  parseTs : String → Option Int
  parseBody : String → Option BatchPayload
  sha256hex : String → String
  hmacSha256 : String → String → String
  jwtDecode : String → JwtResult

/-- The `_meta` enrichment stamped on each enqueued metric. -/
structure MetaInfo where
  schema_version : Nat
  ingested_at : Int
  ingested_by : String
  source_region : String
deriving DecidableEq

/-- One row pushed onto the shared queue `fiber:etl:queue`. -/
structure QueuedPayload where
  metric : Metric
  meta : MetaInfo
deriving DecidableEq

/-- The shared Redis state touched by `ingest_batch`: `SETEX`-keys (nonce and
idempotency), the ETL queue, and the rejection counter
`fiber:metrics:ingest_rejection_count`. -/
structure RedisState where
  kv : List (String × Int)
  queue : List QueuedPayload
  rejectionCount : Nat
deriving DecidableEq

/-- The observable response of `ingest_batch`:
`accepted` is the 202 `"Queued {count} metrics"` response,
`alreadyProcessed` the 202 `"Batch already processed (Idempotent)"` response,
`error code detail` an `HTTPException(status_code = code)`. -/
inductive IngestResult where
  | accepted (count : Nat) (sourceRegion : String)
  | alreadyProcessed
  | error (status : Nat) (detail : String)
deriving DecidableEq

/-- The signing material `f"{batch_id}:{timestamp}:{nonce}:{body_hash}"`. -/
def hmac_message (batchId tsStr nonce bodyHash : String) : String :=
  batchId ++ ":" ++ tsStr ++ ":" ++ nonce ++ ":" ++ bodyHash

/-- Region derived from the first metric:
`f"{(country or 'xx').lower()}-{(region or 'unknown').lower().replace(' ', '-')}"`. -/
def region_from_metric (m : Metric) : String :=
  let country := pyLower (if m.country = "" then "xx" else m.country)
  let region :=
    pyReplaceChar ' ' ['-'] (pyLower (if m.region = "" then "unknown" else m.region))
  country ++ "-" ++ region

/-- Step 3 of `ingest_batch`: canonical region precedence.  Priority 1 is the
`X-Region-ID` header (a present-but-empty header is falsy in Python and falls
through), priority 2 derives from the first metric, priority 3 is the literal
`"unknown"`. -/
def resolve_region (regionHeader : Option String) (batch : BatchPayload) : String :=
  match regionHeader with
  | some r =>
    if r = "" then
      match batch.metrics with
      | [] => "unknown"
      | m :: _ => region_from_metric m
    else r
  | none =>
    match batch.metrics with
    | [] => "unknown"
    | m :: _ => region_from_metric m

/-- The interpolated idempotency key suffix, where the batch id may be the
Python `None` object (the header is only guaranteed present on the HMAC
path). -/
def batch_id_str (batchId : Option String) : String :=
  match batchId with
  | some b => b
  | none => "None"

/-- Layer-2 identity check of `ingest_batch`: `Authorization: Bearer <token>`
with an RS256 JWT attempt (when a public key is configured and the token
looks like a JWT) falling back to the legacy federation secret.  Returns
`none` when identity is established, `some (status, detail)` for the raised
`HTTPException`. -/
def check_identity (env : GatewayEnv) (authHeader : Option String) :
    Option (Nat × String) :=
  match authHeader with
  | none => some (401, "Missing Authorization header")
  | some ah =>
    if "Bearer ".data.isPrefixOf ah.data then
      let token := (pySplitChar ' ' ah).getD 1 ""
      if env.jwtPublicKey != "" && token.data.contains '.' then
        match env.jwtDecode token with
        | .valid => none
        | .expired => some (401, "JWT expired")
        | .invalid =>
          if token = env.legacySecret then none
          else some (401, "Invalid Federation Token")
      else
        if token = env.legacySecret then none
        else some (401, "Invalid Federation Token")
    else some (401, "Missing Authorization header")

/-- Step 5 of `ingest_batch`: enrich every metric whose `node_id` matches the
batch (mismatches are dropped with a warning) and `RPUSH` the whole batch in
one pipeline.  `pipelineOk` models whether `pipeline.execute()` succeeds; a
raised exception is answered with a 500 and nothing is enqueued. -/
def enqueue_metrics (env : GatewayEnv) (st : RedisState) (now : Int)
    (batch : BatchPayload) (sourceRegion : String) (pipelineOk : Bool) :
    IngestResult × RedisState :=
  if pipelineOk then
    let payloads := (batch.metrics.filter (fun m => m.node_id == batch.node_id)).map
      (fun m =>
        { metric := m,
          meta := { schema_version := 1, ingested_at := now,
                    ingested_by := env.nodeRole, source_region := sourceRegion } })
    (.accepted payloads.length sourceRegion, { st with queue := st.queue ++ payloads })
  else
    (.error 500 "Ingestion failed", st)

/-- `ingest_batch` from the body parse onwards (steps at lines 176-287 of
src/fiber-api/src/routes.py): parse, identity, idempotency, region
resolution, strict-at-central region validation, enqueue. -/
def ingest_after_hmac (env : GatewayEnv) (st : RedisState) (now : Int)
    (hdrs : IngestHeaders) (body : String) (pipelineOk : Bool) :
    IngestResult × RedisState :=
  match env.parseBody body with
  | none => (.error 422 "Invalid payload", st)
  | some batch =>
    match check_identity env hdrs.authorization with
    | some e => (.error e.1 e.2, st)
    | none =>
      let idemKey := "idempotency:batch:" ++ batch_id_str hdrs.batchId
      if kv_exists st.kv now idemKey then (.alreadyProcessed, st)
      else
        let st1 := { st with kv := kv_setex st.kv now 600 idemKey }
        let sourceRegion := resolve_region hdrs.regionId batch
        if sourceRegion ∉ env.allowedRegions ∧ sourceRegion ≠ "unknown" then
          if env.validationMode = "strict" ∧ env.nodeRole = "central" then
            (.error 400 "INVALID_REGION",
             { st1 with rejectionCount := st1.rejectionCount + 1 })
          else
            enqueue_metrics env st1 now batch sourceRegion pipelineOk
        else
          enqueue_metrics env st1 now batch sourceRegion pipelineOk

/-- `ingest_batch` (src/fiber-api/src/routes.py, lines 106-287).  Layer 1 runs
only when all four HMAC headers are present: timestamp freshness
(`|now − ts| > 300` → 401), nonce anti-replay (`EXISTS` → 401, else
`SETEX 600`), and constant-time signature comparison against
`HMAC-SHA256(secret, batch_id:timestamp:nonce:sha256(body))`. -/
def ingest_batch (env : GatewayEnv) (st : RedisState) (now : Int)
    (hdrs : IngestHeaders) (body : String) (pipelineOk : Bool) :
    IngestResult × RedisState :=
  match hdrs.signature, hdrs.timestamp, hdrs.nonce, hdrs.batchId with
  | some sig, some tsStr, some nonce, some bid =>
    match env.parseTs tsStr with
    | none => (.error 401 "Invalid timestamp format", st)
    | some ts =>
      if (now - ts).natAbs > 300 then (.error 401 "Request timestamp too old", st)
      else
        let nonceKey := "nonce:" ++ nonce
        if kv_exists st.kv now nonceKey then (.error 401 "Nonce replay detected", st)
        else
          let st1 := { st with kv := kv_setex st.kv now 600 nonceKey }
          let expected :=
            env.hmacSha256 env.legacySecret
              (hmac_message bid tsStr nonce (env.sha256hex body))
          if sig ≠ expected then (.error 401 "Invalid HMAC signature", st1)
          else ingest_after_hmac env st1 now hdrs body pipelineOk
  | _, _, _, _ => ingest_after_hmac env st now hdrs body pipelineOk

end FiberStack.Gateway

namespace FiberStack.Etl

/-- An ETL-side metric after parse/normalize/validate (src/fiber-etl/src/
normalizer.py is upstream of the stages modelled here): the fields the dedup
and conflict-audit stages read are `node_id`, the ISO `timestamp` string, and
`_meta.source_region` (already defaulted to `"unknown"` when absent).  The
value itself stands for the full JSON payload. -/
structure EtlMetric where
  node_id : String
  timestamp : String
  source_region : String
deriving DecidableEq

/-- The dedup timestamp key (worker.py line 72): the first 19 characters of
the timestamp when it is at least 19 characters long, else the whole
timestamp. -/
def dedup_ts_key (ts : String) : String :=
  if ts.length ≥ 19 then pyTake 19 ts else ts

/-- The dedup key `dedup:<node_id>:<ts_key>`. -/
def dedup_key (m : EtlMetric) : String :=
  "dedup:" ++ m.node_id ++ ":" ++ dedup_ts_key m.timestamp

/-- The `time` column value: `datetime.fromisoformat` of the timestamp after
the `Z → +00:00` substitution, kept as the normalized string. -/
def db_time (ts : String) : String :=
  pyReplaceChar 'Z' "+00:00".data ts

/-- A row of the `metrics` hypertable, keyed by `(time, node_id)`. -/
structure MetricsRow where
  time : String
  node_id : String
  payload : EtlMetric
deriving DecidableEq

/-- A row of `metric_conflicts`: `(time, node_id, payload, ingest_region)`. -/
structure ConflictRow where
  time : String
  node_id : String
  payload : EtlMetric
  ingest_region : String
deriving DecidableEq

/-- The state the dedup and insert stages of the worker touch: the Redis
dedup key space, the two tables, and the Prometheus duplicate counter
(`etl_metrics.record_duplicate`). -/
structure EtlState where
  dedupKeys : List (String × Int)
  metricsTable : List MetricsRow
  conflictsTable : List ConflictRow
  duplicateCount : Nat
deriving DecidableEq

/-- `DEDUP_TTL_SEC` default. -/
def DEDUP_TTL_SEC : Int := 180

/-- `dedupe_batch` (worker.py lines 62-90): one pipelined
`SET key "1" NX EX 180` per metric, in order; metrics whose key already
existed are dropped and counted as duplicates, the rest are kept. -/
def dedupe_batch (now : Int) (dedupEnabled : Bool) (st : EtlState)
    (batch : List EtlMetric) : EtlState × List EtlMetric :=
  if ¬ dedupEnabled ∨ batch = [] then (st, batch)
  else
    batch.foldl
      (fun acc m =>
        if kv_exists acc.1.dedupKeys now (dedup_key m) then
          ({ acc.1 with duplicateCount := acc.1.duplicateCount + 1 }, acc.2)
        else
          ({ acc.1 with dedupKeys := kv_setex acc.1.dedupKeys now DEDUP_TTL_SEC (dedup_key m) },
           acc.2 ++ [m]))
      (st, [])

/-- Membership of a `(time, node_id)` key in the metrics table (the unique
constraint of the hypertable). -/
def table_has_key (t : List MetricsRow) (time node : String) : Bool :=
  t.any (fun r => r.time == time && r.node_id == node)

/-- The row a metric maps to. -/
def to_row (m : EtlMetric) : MetricsRow :=
  { time := db_time m.timestamp, node_id := m.node_id, payload := m }

/-- Whether `copy_records_to_table` raises `UniqueViolationError`: some
record collides with an existing row or with an earlier record of the same
batch. -/
def copy_violates (t : List MetricsRow) : List EtlMetric → Bool
  | [] => false
  | m :: rest =>
    table_has_key t (db_time m.timestamp) m.node_id || copy_violates (to_row m :: t) rest

/-- One iteration of the Day-97 audit fallback (worker.py lines 266-294):
`INSERT … ON CONFLICT (time, node_id) DO NOTHING`; a conflict increments the
duplicate counter and appends `(time, node_id, payload, source_region)` to
`metric_conflicts`. -/
def insert_row_audit (st : EtlState) (m : EtlMetric) : EtlState :=
  if table_has_key st.metricsTable (db_time m.timestamp) m.node_id then
    { st with duplicateCount := st.duplicateCount + 1,
              conflictsTable := st.conflictsTable ++
                [{ time := db_time m.timestamp, node_id := m.node_id,
                   payload := m, ingest_region := m.source_region }] }
  else
    { st with metricsTable := st.metricsTable ++ [to_row m] }

/-- Step 7 of `process_batch` with `USE_COPY` (worker.py lines 242-294): try
the bulk copy; on a unique violation fall back to the row-by-row audit
path. -/
def bulk_insert_with_audit (st : EtlState) (cleaned : List EtlMetric) : EtlState :=
  if copy_violates st.metricsTable cleaned then
    cleaned.foldl insert_row_audit st
  else
    { st with metricsTable := st.metricsTable ++ cleaned.map to_row }

/-- `process_batch` (worker.py lines 151-348) restricted to the stages that
touch the `metrics` and `metric_conflicts` tables, applied to an
already-parsed-and-validated batch: dedup, early return when everything was
a duplicate, bulk insert with conflict audit.  The node-cache upsert, the
alert/analytics hooks and the status heartbeat write other stores and are
out of scope of the claims. -/
def process_batch (now : Int) (dedupEnabled : Bool) (st : EtlState)
    (batch : List EtlMetric) : EtlState :=
  if batch = [] then st
  else
    let r := dedupe_batch now dedupEnabled st batch
    if r.2 = [] then r.1
    else bulk_insert_with_audit r.1 r.2

end FiberStack.Etl

namespace FiberStack.Audit

/-- The payload fields of an audit entry (src/fiber-api/src/audit.py,
`audit_log`): `ts`, `user`, `role`, `action`, `resource`, `details`.
`details` is a JSON object in the source; it is carried here as its
canonical serialization. -/
structure AuditEntry where
  ts : String
  user : String
  role : String
  action : String
  resource : String
  details : String
deriving DecidableEq

/-- JSON string escaping as performed by `json.dumps` on the backslash and
double-quote characters (sufficient for the fields the chain hashes). -/
def jsonEscape (s : String) : String :=
  String.mk (s.data.foldr
    (fun c acc =>
      if c = '\\' then '\\' :: '\\' :: acc
      else if c = '"' then '\\' :: '"' :: acc
      else c :: acc) [])

/-- A JSON string literal. -/
def jsonStr (s : String) : String :=
  "\"" ++ jsonEscape s ++ "\""

/-- `json.dumps(entry, sort_keys=True)` at hash time: the entry dict holds
the six payload fields plus `prev_hash` (set before `_compute_hash` is
called) and not yet `hash`; keys serialize in sorted order
`action, details, prev_hash, resource, role, ts, user`. -/
def canonical_entry (e : AuditEntry) (prevHash : String) : String :=
  "\x7b" ++ jsonStr "action" ++ ": " ++ jsonStr e.action ++ ", " ++
  jsonStr "details" ++ ": " ++ e.details ++ ", " ++
  jsonStr "prev_hash" ++ ": " ++ jsonStr prevHash ++ ", " ++
  jsonStr "resource" ++ ": " ++ jsonStr e.resource ++ ", " ++
  jsonStr "role" ++ ": " ++ jsonStr e.role ++ ", " ++
  jsonStr "ts" ++ ": " ++ jsonStr e.ts ++ ", " ++
  jsonStr "user" ++ ": " ++ jsonStr e.user ++ "\x7d"

/-- `_compute_hash(entry, prev_hash)`:
`sha256(json.dumps(entry, sort_keys=True) + prev_hash).hexdigest()[:16]`.
The truncated SHA-256 digest is the uninterpreted parameter `H`. -/
def compute_hash (H : String → String) (e : AuditEntry) (prevHash : String) : String :=
  H (canonical_entry e prevHash ++ prevHash)

/-- One line of the JSONL audit log: the payload plus the two chain
fields. -/
structure AuditRecord where
  payload : AuditEntry
  prev_hash : String
  hash : String
deriving DecidableEq

/-- The record `audit_log` appends for payload `e` when the module-level
`_last_hash` equals `prev`. -/
def audit_log_record (H : String → String) (prev : String) (e : AuditEntry) :
    AuditRecord :=
  { payload := e, prev_hash := prev, hash := compute_hash H e prev }

/-- The log produced by a sequence of `audit_log` calls with the chain state
starting at `prev`. -/
def build_chain_from (H : String → String) (prev : String) :
    List AuditEntry → List AuditRecord
  | [] => []
  | e :: es =>
    let r := audit_log_record H prev e
    r :: build_chain_from H r.hash es

/-- The log produced by a sequence of `audit_log` calls starting from an
empty log (`_last_hash = "GENESIS"`). -/
def build_chain (H : String → String) (es : List AuditEntry) : List AuditRecord :=
  build_chain_from H "GENESIS" es

/-- The loop of `verify_audit_chain` (audit.py lines 113-147) from a given
chain value and 1-based line number: check `entry["prev_hash"]` against the
running hash, then the stored hash against the recomputation over the entry
without its `hash` key. -/
def verify_from (H : String → String) (prev : String) (lineNum : Nat) :
    List AuditRecord → Bool × Option Nat
  | [] => (true, none)
  | r :: rest =>
    if r.prev_hash ≠ prev then (false, some lineNum)
    else if r.hash ≠ compute_hash H r.payload prev then (false, some lineNum)
    else verify_from H r.hash (lineNum + 1) rest

/-- `verify_audit_chain`: start at `prev_hash = "GENESIS"`, line 1. -/
def verify_audit_chain (H : String → String) (log : List AuditRecord) :
    Bool × Option Nat :=
  verify_from H "GENESIS" 1 log

end FiberStack.Audit

namespace FiberStack.Failover

/-- The mutable state of `FailoverController`
(src/fiber-probe/src/failover.py).  Targets are identified by their index in
the priority-sorted client list; the monotonic clock and the backoff are
rational seconds. -/
structure FCState where
  active_index : Nat
  cooldown_until : ℚ
  consecutive_successes : Nat
  consecutive_failures : Nat
  backoff_sec : ℚ
deriving DecidableEq

/-- `STICKINESS_SEC`. -/
def STICKINESS_SEC : ℚ := 120

/-- `PROMOTION_THRESHOLD`. -/
def PROMOTION_THRESHOLD : Nat := 5

/-- `MAX_BACKOFF`. -/
def MAX_BACKOFF : ℚ := 60

/-- `INITIAL_BACKOFF`. -/
def INITIAL_BACKOFF : ℚ := 1

/-- Initial controller state (`__init__`). -/
def initState : FCState :=
  { active_index := 0, cooldown_until := 0, consecutive_successes := 0,
    consecutive_failures := 0, backoff_sec := INITIAL_BACKOFF }

/-- `_can_promote`: at least `PROMOTION_THRESHOLD` consecutive successes and
the monotonic clock strictly past `cooldown_until`. -/
def can_promote (now : ℚ) (st : FCState) : Bool :=
  decide (st.consecutive_successes ≥ PROMOTION_THRESHOLD) && decide (now > st.cooldown_until)

/-- `_promote_to_primary`. -/
def promote_to_primary (st : FCState) : FCState :=
  { st with active_index := 0, consecutive_successes := 0 }

/-- `_record_success`: bump successes, clear failures, reset backoff, then
promote when `active_index > 0` and `_can_promote()`. -/
def record_success (now : ℚ) (st : FCState) : FCState :=
  let st1 := { st with consecutive_successes := st.consecutive_successes + 1,
                       consecutive_failures := 0,
                       backoff_sec := INITIAL_BACKOFF }
  if st1.active_index > 0 ∧ can_promote now st1 = true then promote_to_primary st1
  else st1

/-- `_record_failure` (the Prometheus counter is elided). -/
def record_failure (st : FCState) : FCState :=
  { st with consecutive_failures := st.consecutive_failures + 1,
            consecutive_successes := 0 }

/-- `_failover_to(new_index)` at monotonic time `now`: activate the target
and arm the stickiness window `cooldown_until = now + STICKINESS_SEC`. -/
def failover_to (i : Nat) (now : ℚ) (st : FCState) : FCState :=
  { st with active_index := i,
            cooldown_until := now + STICKINESS_SEC,
            consecutive_successes := 0,
            backoff_sec := INITIAL_BACKOFF }

/-- The fallback scan of `_try_fallback`: the first index in client order
that is not the active index and whose push succeeds in this round. -/
def first_fallback (n : Nat) (active : Nat) (res : Nat → Bool) : Option Nat :=
  (List.range n).find? (fun i => i != active && res i)

/-- One call of `FailoverController.push` over `n` targets.  `res i` is the
outcome of `_try_push` on target `i` in this round (timeouts and transport
exceptions are already folded into `False` there); `now` is the monotonic
instant at which `_can_promote` respectively `_failover_to` reads the clock.
Returns `((success, active_target), state)`; the jittered backoff sleep has
no state effect beyond the doubling of `backoff_sec`. -/
def fc_push (n : Nat) (res : Nat → Bool) (now : ℚ) (st : FCState) :
    (Bool × Option Nat) × FCState :=
  if n = 0 then ((false, none), st)
  else if res st.active_index then
    ((true, some st.active_index), record_success now st)
  else
    let st1 := record_failure st
    let st2 := { st1 with backoff_sec := min (st1.backoff_sec * 2) MAX_BACKOFF }
    match first_fallback n st.active_index res with
    | some i => ((true, some i), failover_to i now st2)
    | none => ((false, none), st2)

/-- Iterated pushes: each step supplies its per-target outcomes and its
monotonic instant. -/
def fc_push_seq (n : Nat) (st : FCState) : List ((Nat → Bool) × ℚ) → FCState
  | [] => st
  | step :: rest => fc_push_seq n (fc_push n step.1 step.2 st).2 rest

end FiberStack.Failover

namespace FiberStack.Client

/-- What one attempt of the `push_batch` loop observes
(src/fiber-probe/src/client.py lines 134-166): an HTTP status, a network
error (`aiohttp.ClientError` / `asyncio.TimeoutError`), or an unexpected
exception. -/
inductive AttemptOutcome where
  | status (code : Nat)
  | netErr
  | exn
deriving DecidableEq

/-- The backoff before the retry following attempt number `attempt`:
`min(max_delay, base_delay * 2 ** (attempt - 1))` seconds. -/
def retry_delay (base maxD : ℚ) (attempt : Nat) : ℚ :=
  min maxD (base * 2 ^ (attempt - 1))

/-- The `for attempt in range(1, max_attempts + 1)` loop, with `attempt` the
current attempt number and the second argument the number of attempts still
available.  Returns the boolean result together with the list of backoff
delays slept (a delay is slept only when `attempt < max_attempts`). -/
def push_attempts (base maxD : ℚ) (outcomes : Nat → AttemptOutcome) :
    Nat → Nat → Bool × List ℚ
  | _, 0 => (false, [])
  | attempt, r + 1 =>
    let retry : Bool × List ℚ :=
      if r = 0 then (false, [])
      else
        let next := push_attempts base maxD outcomes (attempt + 1) r
        (next.1, retry_delay base maxD attempt :: next.2)
    match outcomes attempt with
    | .status c =>
      if c = 200 ∨ c = 201 ∨ c = 202 then (true, [])
      else if 400 ≤ c ∧ c < 500 ∧ c ≠ 408 then (false, [])
      else retry
    | .netErr => retry
    | .exn => (false, [])

/-- `FederationClient.push_batch`: short-circuit when the circuit breaker is
open, succeed immediately on an empty batch, otherwise run the attempt
loop.  Header construction and HMAC signing do not influence the
retry/return behaviour and are elided. -/
def push_batch (circuitOpen batchEmpty : Bool) (maxAttempts : Nat)
    (base maxD : ℚ) (outcomes : Nat → AttemptOutcome) : Bool × List ℚ :=
  if circuitOpen then (false, [])
  else if batchEmpty then (true, [])
  else push_attempts base maxD outcomes 1 maxAttempts

/-- An outcome on which the loop continues to the next attempt: a network
error, or a status that is neither an immediate success (200/201/202) nor a
non-retryable 4xx (4xx other than 408). -/
def retryable : AttemptOutcome → Bool
  | .status c =>
    ¬ (c = 200 ∨ c = 201 ∨ c = 202) ∧ ¬ (400 ≤ c ∧ c < 500 ∧ c ≠ 408)
  | .netErr => true
  | .exn => false

end FiberStack.Client

namespace FiberStack.Aggregate

/-- The per-table circuit breaker state
(src/fiber-api/src/aggregate_service.py, `CircuitBreaker`); the failure
threshold is 5 and the reset timeout 60 s for every instance.  Wall-clock
instants are rational seconds. -/
structure CBState where
  failures : Nat
  is_open : Bool
  last_failure : Option ℚ
deriving DecidableEq

/-- `failure_threshold`. -/
def FAILURE_THRESHOLD : Nat := 5

/-- `reset_timeout` in seconds. -/
def RESET_TIMEOUT : ℚ := 60

/-- A freshly constructed breaker. -/
def cbInit : CBState :=
  { failures := 0, is_open := false, last_failure := none }

/-- `CircuitBreaker.record_failure` at time `now`. -/
def cb_record_failure (now : ℚ) (cb : CBState) : CBState :=
  let cb1 := { cb with failures := cb.failures + 1, last_failure := some now }
  if cb1.failures ≥ FAILURE_THRESHOLD then { cb1 with is_open := true } else cb1

/-- `CircuitBreaker.record_success`. -/
def cb_record_success (cb : CBState) : CBState :=
  { cb with failures := 0, is_open := false }

/-- `CircuitBreaker.can_proceed` at time `now`: closed breakers proceed; an
open breaker proceeds only half-open, i.e. when a last failure exists and
more than the reset timeout has elapsed. -/
def cb_can_proceed (now : ℚ) (cb : CBState) : Bool :=
  if ¬ cb.is_open then true
  else
    match cb.last_failure with
    | some t => decide (now - t > RESET_TIMEOUT)
    | none => false

/-- `CircuitBreaker.get_state` at time `now`. -/
def cb_get_state (now : ℚ) (cb : CBState) : String :=
  if ¬ cb.is_open then "CLOSED"
  else
    match cb.last_failure with
    | some t => if now - t > RESET_TIMEOUT then "HALF_OPEN" else "OPEN"
    | none => "OPEN"

/-- The five per-aggregate breakers of the module-level `CIRCUIT_BREAKERS`
dict. -/
structure CircuitBreakers where
  agg1m : CBState
  agg5mNode : CBState
  agg5mRegion : CBState
  aggHourly : CBState
  aggDaily : CBState
deriving DecidableEq

/-- `CIRCUIT_BREAKERS.get(table)`. -/
def cb_for (cbs : CircuitBreakers) (table : String) : Option CBState :=
  if table = "aggregates_1m" then some cbs.agg1m
  else if table = "aggregates_5m_node" then some cbs.agg5mNode
  else if table = "aggregates_5m_region" then some cbs.agg5mRegion
  else if table = "aggregates_hourly" then some cbs.aggHourly
  else if table = "aggregates_daily" then some cbs.aggDaily
  else none

/-- The window-size cascade of `select_aggregate` for windows of at least
120 s (lines 179-189). -/
def aggregate_table_for (window_seconds : Int) (dimension : String) : String :=
  if window_seconds < 900 then "aggregates_1m"
  else if window_seconds < 7200 then
    if dimension = "region" then "aggregates_5m_region" else "aggregates_5m_node"
  else if window_seconds < 172800 then "aggregates_hourly"
  else "aggregates_daily"

/-- `select_aggregate(window_seconds, dimension, prefer_freshness)` (lines
144-199) evaluated against breaker states at wall-clock `now`: feature flag,
freshness override, raw cutoff at 120 s, the table cascade, then the
circuit-breaker gate that falls back to raw metrics.  Returns
`(table_name, requires_health_check)`. -/
def select_aggregate (useAggregates : Bool) (cbs : CircuitBreakers) (now : ℚ)
    (window_seconds : Int) (dimension : String) (prefer_freshness : Bool) :
    String × Bool :=
  if ¬ useAggregates then ("metrics", false)
  else if prefer_freshness ∧ window_seconds < 600 then ("metrics", false)
  else if window_seconds < 120 then ("metrics", false)
  else
    let table := aggregate_table_for window_seconds dimension
    match cb_for cbs table with
    | some cb =>
      if ¬ cb_can_proceed now cb then ("metrics", false) else (table, true)
    | none => (table, true)

end FiberStack.Aggregate

namespace FiberStack.Buffer

/-- `DurableBuffer` state (src/fiber-probe/src/buffer.py): the FIFO queue of
`(id, payload)` rows in id-ascending order, the autoincrement counter, and
the byte quota.  The `size_bytes` of a row is the length of its serialized
payload. -/
structure BufState where
  queue : List (Nat × String)
  nextId : Nat
  maxSize : Nat
deriving DecidableEq

/-- A fresh buffer with quota `maxSize`. -/
def bufInit (maxSize : Nat) : BufState :=
  { queue := [], nextId := 1, maxSize := maxSize }

/-- `_get_size`: `SELECT SUM(size_bytes) FROM queue`. -/
def get_size (st : BufState) : Nat :=
  (st.queue.map (fun r => r.2.length)).sum

/-- `depth`: `SELECT COUNT(*) FROM queue`. -/
def depth (st : BufState) : Nat :=
  st.queue.length

/-- `_drop_oldest`: delete the `COUNT(*)/10` (integer division) rows with the
smallest ids. -/
def drop_oldest (st : BufState) : BufState :=
  { st with queue := st.queue.drop (st.queue.length / 10) }

/-- `DurableBuffer.push` on the serialized payload: measure, evict when
`current_size + size > max_size`, then insert unconditionally and return
`True`. -/
def push (st : BufState) (payload : String) : Bool × BufState :=
  let size := payload.length
  let st1 := if get_size st + size > st.maxSize then drop_oldest st else st
  (true, { st1 with queue := st1.queue ++ [(st1.nextId, payload)],
                    nextId := st1.nextId + 1 })

/-- Iterated pushes, collecting each return value. -/
def push_all (st : BufState) : List String → List Bool × BufState
  | [] => ([], st)
  | p :: ps =>
    let r := push st p
    let rest := push_all r.2 ps
    (r.1 :: rest.1, rest.2)

end FiberStack.Buffer

namespace FiberStack.Gateway

/-- A concrete probe metric used to instantiate the gateway theorems. -/
def sampleMetric : Metric :=
  { node_id := "probe-1", country := "GH", region := "Greater Accra",
    timestamp := "2026-01-01T00:00:00Z" }

/-- A one-metric batch whose metric matches the batch node id. -/
def sampleBatch : BatchPayload :=
  { node_id := "probe-1", metrics := [sampleMetric] }

/-- A batch with no metrics. -/
def emptyBatch : BatchPayload :=
  { node_id := "probe-1", metrics := [] }

/-- A concrete gateway environment: default secret, no JWT public key,
default allowed regions, central node in strict mode; the abstracted parsers
and digests are given simple computable instances. -/
def sampleEnv : GatewayEnv :=
  { legacySecret := "default_secret_change_me",
    jwtPublicKey := "",
    allowedRegions := ["gh-accra", "ng-lagos", "ke-nairobi"],
    nodeRole := "central",
    validationMode := "strict",
    parseTs := fun _ => some 0,
    parseBody := fun b => if b = "emptybatch" then some emptyBatch else some sampleBatch,
    sha256hex := fun s => s,
    hmacSha256 := fun k m => k ++ "#" ++ m,
    jwtDecode := fun _ => .invalid }

/-- Fresh shared state: no keys, empty queue, zero rejections. -/
def emptyRedis : RedisState :=
  { kv := [], queue := [], rejectionCount := 0 }

/-- The legacy bearer header carrying the federation secret. -/
def bearerSecret : String := "Bearer default_secret_change_me"

end FiberStack.Gateway

namespace FiberStack.Etl

/-- Fresh ETL-side state: no dedup keys, empty tables, zero duplicates. -/
def etlInit : EtlState :=
  { dedupKeys := [], metricsTable := [], conflictsTable := [], duplicateCount := 0 }

/-- A concrete ETL metric used to instantiate the worker theorems. -/
def sampleEtlMetric : EtlMetric :=
  { node_id := "node-1", timestamp := "2026-02-03T04:05:06Z",
    source_region := "gh-accra" }

end FiberStack.Etl

namespace FiberStack.Audit

instance : Inhabited AuditEntry :=
  ⟨{ ts := "", user := "", role := "", action := "", resource := "", details := "" }⟩

instance : Inhabited AuditRecord :=
  ⟨{ payload := default, prev_hash := "", hash := "" }⟩

/-- A concrete audit entry used to instantiate the chain theorems. -/
def sampleEntry1 : AuditEntry :=
  { ts := "2026-01-01T00:00:00+00:00", user := "admin", role := "ADMIN",
    action := "DELETE_NODE", resource := "node:probe-1", details := "\x7b\x7d" }

/-- A second concrete audit entry. -/
def sampleEntry2 : AuditEntry :=
  { ts := "2026-01-01T00:00:05+00:00", user := "op", role := "OPERATOR",
    action := "CREATE_NODE", resource := "node:probe-2", details := "\x7b\x7d" }

end FiberStack.Audit

namespace FiberStack.Aggregate

/-- All five breakers of the module-level dict in the closed state. -/
def all_closed (cbs : CircuitBreakers) : Prop :=
  cbs.agg1m.is_open = false ∧ cbs.agg5mNode.is_open = false ∧
  cbs.agg5mRegion.is_open = false ∧ cbs.aggHourly.is_open = false ∧
  cbs.aggDaily.is_open = false

/-- All five breakers freshly constructed. -/
def cbsInit : CircuitBreakers :=
  { agg1m := cbInit, agg5mNode := cbInit, agg5mRegion := cbInit,
    aggHourly := cbInit, aggDaily := cbInit }

end FiberStack.Aggregate

namespace FiberStack

open Gateway Etl Audit Failover Client Aggregate Buffer

/-! ## Theorems -/

/-- Claim C3: for every `/ingest` request presenting the HMAC signature
headers, if the absolute difference between the gateway clock and the
`X-Fiber-Timestamp` header exceeds 300 seconds, the gateway responds 401 and
does not enqueue any metric (the shared state is left untouched). -/
theorem ingest_stale_timestamp_401
    (env : Gateway.GatewayEnv) (st : Gateway.RedisState) (now ts : Int)
    (sig tsStr nonce bid : String) (regionId auth : Option String)
    (body : String) (pipelineOk : Bool)
    (hparse : env.parseTs tsStr = some ts)
    (hstale : (now - ts).natAbs > 300) :
    Gateway.ingest_batch env st now
        ⟨some sig, some tsStr, some nonce, some bid, regionId, auth⟩ body pipelineOk
      = (.error 401 "Request timestamp too old", st) := by
  simp [Gateway.ingest_batch, hparse, hstale]

/-- Witness for C3: a signed request stamped 1000 s after its timestamp is
rejected with 401 on the fresh state. -/
theorem ingest_stale_timestamp_401_witness :
    Gateway.ingest_batch Gateway.sampleEnv Gateway.emptyRedis 1000
        ⟨some "sig", some "t0", some "n0", some "b0", none, some Gateway.bearerSecret⟩
        "body" true
      = (.error 401 "Request timestamp too old", Gateway.emptyRedis) :=
  ingest_stale_timestamp_401 Gateway.sampleEnv Gateway.emptyRedis 1000 0
    "sig" "t0" "n0" "b0" none (some Gateway.bearerSecret) "body" true rfl (by decide)

/-- Claim C10: for every buffer state with fewer than 10 queued rows the
eviction deletes `COUNT(*)/10 = 0` rows; `push` inserts the payload anyway
and returns `True`; hence pushing does not preserve `size_bytes ≤ max_bytes`
and the buffer can exceed its byte quota without bound. -/
theorem buffer_quota_not_preserved :
    (∀ st : Buffer.BufState, st.queue.length < 10 → Buffer.drop_oldest st = st) ∧
    (∀ (st : Buffer.BufState) (payload : String), st.queue.length < 10 →
      Buffer.push st payload =
        (true, { st with queue := st.queue ++ [(st.nextId, payload)],
                         nextId := st.nextId + 1 })) ∧
    (∃ (st : Buffer.BufState) (payload : String),
      Buffer.get_size st ≤ st.maxSize ∧
      Buffer.get_size (Buffer.push st payload).2 > (Buffer.push st payload).2.maxSize) ∧
    (∀ B : Nat, ∃ payloads : List String,
      payloads.length ≤ 10 ∧
      (Buffer.push_all (Buffer.bufInit 100) payloads).1.all id = true ∧
      Buffer.get_size (Buffer.push_all (Buffer.bufInit 100) payloads).2 > B) := by
  have hdrop : ∀ st : Buffer.BufState, st.queue.length < 10 → Buffer.drop_oldest st = st := by
    intro st h
    simp [Buffer.drop_oldest, Nat.div_eq_of_lt h]
  refine ⟨hdrop, ?_, ?_, ?_⟩
  · intro st payload h
    simp [Buffer.push, hdrop st h, ite_self]
  · exact ⟨{ queue := [(1, "abc")], nextId := 2, maxSize := 3 }, "d", by decide, by decide⟩
  · intro B
    refine ⟨[String.mk (List.replicate (B + 1) 'a')], by simp, ?_, ?_⟩
    · simp [Buffer.push_all, Buffer.push, Buffer.bufInit, Buffer.drop_oldest,
            Buffer.get_size, ite_self]
    · have hlen : (String.mk (List.replicate (B + 1) 'a')).length = B + 1 := by
        simp [String.length]
      simp [Buffer.push_all, Buffer.push, Buffer.bufInit, Buffer.drop_oldest,
            Buffer.get_size, ite_self, hlen]

/-- Witness for C10: the universally quantified conjuncts instantiated: a
9-row-or-fewer buffer is not evicted, an over-quota push still succeeds, and
a quota-101 overshoot is reachable. -/
theorem buffer_quota_not_preserved_witness :
    Buffer.drop_oldest { queue := [(1, "abc")], nextId := 2, maxSize := 3 } =
      { queue := [(1, "abc")], nextId := 2, maxSize := 3 } ∧
    Buffer.push { queue := [(1, "abc")], nextId := 2, maxSize := 3 } "d" =
      (true, { queue := [(1, "abc"), (2, "d")], nextId := 3, maxSize := 3 }) ∧
    (∃ payloads : List String,
      payloads.length ≤ 10 ∧
      (Buffer.push_all (Buffer.bufInit 100) payloads).1.all id = true ∧
      Buffer.get_size (Buffer.push_all (Buffer.bufInit 100) payloads).2 > 101) := by
  refine ⟨buffer_quota_not_preserved.1 _ (by decide), ?_, buffer_quota_not_preserved.2.2.2 101⟩
  have h := buffer_quota_not_preserved.2.1
    { queue := [(1, "abc")], nextId := 2, maxSize := 3 } "d" (by decide)
  simpa using h

/-- Auxiliary for C8: a breaker reported `OPEN` by `get_state` cannot
proceed. -/
theorem cb_open_blocks (now : ℚ) (cb : Aggregate.CBState)
    (h : Aggregate.cb_get_state now cb = "OPEN") :
    Aggregate.cb_can_proceed now cb = false := by
  unfold Aggregate.cb_get_state at h
  unfold Aggregate.cb_can_proceed
  by_cases hopen : cb.is_open
  · simp only [hopen] at h ⊢
    cases hlf : cb.last_failure with
    | none => simp
    | some t =>
      simp only [hlf] at h ⊢
      by_cases ht : now - t > Aggregate.RESET_TIMEOUT
      · simp [ht] at h
      · simp [ht]
  · simp [hopen] at h

/-- Claim C8: with aggregates enabled and every circuit breaker closed,
`select_aggregate` follows the window cascade — raw metrics when
`prefer_freshness` holds and the window is under 600 s, raw under 120 s, the
1-minute aggregate under 900 s, the 5-minute aggregate (region or node per
the caller) under 7200 s, the hourly aggregate under 172800 s, daily
otherwise — and whenever the cascade-chosen table has its breaker in the
`OPEN` state, selection falls back to raw metrics. -/
theorem select_aggregate_cascade
    (cbs : Aggregate.CircuitBreakers) (now : ℚ) (w : Int) (dim : String) (pf : Bool) :
    (Aggregate.all_closed cbs →
      (pf = true → w < 600 →
        Aggregate.select_aggregate true cbs now w dim pf = ("metrics", false)) ∧
      (w < 120 →
        Aggregate.select_aggregate true cbs now w dim pf = ("metrics", false)) ∧
      (¬ (pf = true ∧ w < 600) → 120 ≤ w → w < 900 →
        Aggregate.select_aggregate true cbs now w dim pf = ("aggregates_1m", true)) ∧
      (¬ (pf = true ∧ w < 600) → 900 ≤ w → w < 7200 →
        Aggregate.select_aggregate true cbs now w dim pf =
          ((if dim = "region" then "aggregates_5m_region" else "aggregates_5m_node"), true)) ∧
      (¬ (pf = true ∧ w < 600) → 7200 ≤ w → w < 172800 →
        Aggregate.select_aggregate true cbs now w dim pf = ("aggregates_hourly", true)) ∧
      (¬ (pf = true ∧ w < 600) → 172800 ≤ w →
        Aggregate.select_aggregate true cbs now w dim pf = ("aggregates_daily", true))) ∧
    (∀ cb : Aggregate.CBState,
      ¬ (pf = true ∧ w < 600) → 120 ≤ w →
      Aggregate.cb_for cbs (Aggregate.aggregate_table_for w dim) = some cb →
      Aggregate.cb_get_state now cb = "OPEN" →
      Aggregate.select_aggregate true cbs now w dim pf = ("metrics", false)) := by
  constructor
  · rintro ⟨h1, h2, h3, h4, h5⟩
    have hproceed : ∀ cb : Aggregate.CBState, cb.is_open = false →
        Aggregate.cb_can_proceed now cb = true := by
      intro cb h
      simp [Aggregate.cb_can_proceed, h]
    refine ⟨?_, ?_, ?_, ?_, ?_, ?_⟩
    · intro hpf hw
      simp [Aggregate.select_aggregate, hpf, hw]
    · intro hw
      by_cases hpf : pf = true ∧ w < 600 <;>
        simp [Aggregate.select_aggregate, hpf, hw]
    · intro hpf h120 h900
      simp only [Aggregate.select_aggregate, Aggregate.aggregate_table_for]
      rw [if_neg (by simp), if_neg (by tauto), if_neg (by omega), if_pos h900]
      simp [Aggregate.cb_for, hproceed _ h1]
    · intro hpf h900 h7200
      simp only [Aggregate.select_aggregate, Aggregate.aggregate_table_for]
      rw [if_neg (by simp), if_neg (by tauto), if_neg (by omega), if_neg (by omega),
          if_pos h7200]
      by_cases hdim : dim = "region"
      · simp [hdim, Aggregate.cb_for, hproceed _ h3]
      · simp [hdim, Aggregate.cb_for, hproceed _ h2]
    · intro hpf h7200 h172800
      simp only [Aggregate.select_aggregate, Aggregate.aggregate_table_for]
      rw [if_neg (by simp), if_neg (by tauto), if_neg (by omega), if_neg (by omega),
          if_neg (by omega), if_pos h172800]
      simp [Aggregate.cb_for, hproceed _ h4]
    · intro hpf h172800
      simp only [Aggregate.select_aggregate, Aggregate.aggregate_table_for]
      rw [if_neg (by simp), if_neg (by tauto), if_neg (by omega), if_neg (by omega),
          if_neg (by omega), if_neg (by omega)]
      simp [Aggregate.cb_for, hproceed _ h5]
  · intro cb hpf h120 hfor hstate
    have hblock := cb_open_blocks now cb hstate
    simp only [Aggregate.select_aggregate]
    rw [if_neg (by simp), if_neg (by tauto), if_neg (by omega)]
    simp [hfor, hblock]

/-- Witness for C8: on fresh (closed) breakers a 1-hour node window selects
the 5-minute node aggregate, and an `OPEN` 5-minute-node breaker forces the
same window back to raw metrics. -/
theorem select_aggregate_cascade_witness :
    Aggregate.select_aggregate true Aggregate.cbsInit 0 3600 "node" false =
      ("aggregates_5m_node", true) ∧
    Aggregate.select_aggregate true
        { Aggregate.cbsInit with
            agg5mNode := { failures := 5, is_open := true, last_failure := some 0 } }
        30 3600 "node" false = ("metrics", false) := by
  constructor
  · have h := (select_aggregate_cascade Aggregate.cbsInit 0 3600 "node" false).1
      (by simp [Aggregate.all_closed, Aggregate.cbsInit, Aggregate.cbInit])
    have h4 := h.2.2.2.1 (by simp) (by norm_num) (by norm_num)
    simpa using h4
  · exact (select_aggregate_cascade _ 30 3600 "node" false).2
      { failures := 5, is_open := true, last_failure := some 0 }
      (by simp) (by norm_num)
      (by decide)
      (by norm_num [Aggregate.cb_get_state, Aggregate.RESET_TIMEOUT])

/-- Counterexample for C6 as stated: a 2xx status outside `{200, 201, 202}`
does not yield success — a batch answered 204 on every attempt is retried
with backoff and ultimately fails. -/
theorem push_batch_204_not_success :
    (200 ≤ 204 ∧ 204 < 300) ∧
    Client.push_batch false false 3 1 10 (fun _ => .status 204) =
      (false, [1, 2]) := by
  refine ⟨by norm_num, ?_⟩
  norm_num [Client.push_batch, Client.push_attempts, Client.retry_delay, min_def]

/-- Auxiliary for C6: a run of retryable outcomes only accumulates the
backoff delays `min(max_delay, base·2^(attempt-1))` and defers to the rest of
the loop. -/
theorem push_attempts_skip (base maxD : ℚ) (outcomes : Nat → Client.AttemptOutcome) :
    ∀ (k r attempt : Nat), k < r →
    (∀ j, j < k → Client.retryable (outcomes (attempt + j)) = true) →
    Client.push_attempts base maxD outcomes attempt r =
      ((Client.push_attempts base maxD outcomes (attempt + k) (r - k)).1,
       (List.range k).map (fun j => Client.retry_delay base maxD (attempt + j)) ++
         (Client.push_attempts base maxD outcomes (attempt + k) (r - k)).2) := by
  intro k
  induction k with
  | zero =>
    intro r attempt _ _
    simp
  | succ n ih =>
    intro r attempt hk hall
    obtain ⟨m, rfl⟩ : ∃ m, r = m + 1 := ⟨r - 1, by omega⟩
    have h0 := hall 0 (by omega)
    simp only [Nat.add_zero] at h0
    have hm : 0 < m := by omega
    obtain ⟨m', rfl⟩ : ∃ m', m = m' + 1 := ⟨m - 1, by omega⟩
    have step :
        Client.push_attempts base maxD outcomes attempt (m' + 1 + 1) =
          ((Client.push_attempts base maxD outcomes (attempt + 1) (m' + 1)).1,
           Client.retry_delay base maxD attempt ::
             (Client.push_attempts base maxD outcomes (attempt + 1) (m' + 1)).2) := by
      cases hout : outcomes attempt with
      | status c =>
        rw [hout] at h0
        simp only [Client.retryable, decide_eq_true_eq] at h0
        simp [Client.push_attempts, hout, h0.1, h0.2]
      | netErr =>
        simp [Client.push_attempts, hout]
      | exn =>
        rw [hout] at h0
        simp [Client.retryable] at h0
    rw [step, ih (m' + 1) (attempt + 1) (by omega)
      (fun j hj => by
        have := hall (j + 1) (by omega)
        simpa [Nat.add_assoc, Nat.add_comm 1 j] using this)]
    have harith : attempt + 1 + n = attempt + (n + 1) := by omega
    have hsub : m' + 1 - n = m' + 1 + 1 - (n + 1) := by omega
    rw [harith, hsub]
    simp [List.range_succ_eq_map, Function.comp, Nat.add_assoc, Nat.add_comm 1]

/-- Auxiliary for C6: a success status ends the loop immediately with
`True`. -/
theorem push_attempts_success (base maxD : ℚ) (outcomes : Nat → Client.AttemptOutcome)
    (attempt r c : Nat) (hr : 0 < r) (hout : outcomes attempt = .status c)
    (hc : c = 200 ∨ c = 201 ∨ c = 202) :
    Client.push_attempts base maxD outcomes attempt r = (true, []) := by
  obtain ⟨m, rfl⟩ : ∃ m, r = m + 1 := ⟨r - 1, by omega⟩
  simp [Client.push_attempts, hout, hc]

/-- Auxiliary for C6: a non-408 4xx status ends the loop immediately with
`False`. -/
theorem push_attempts_fatal (base maxD : ℚ) (outcomes : Nat → Client.AttemptOutcome)
    (attempt r c : Nat) (hr : 0 < r) (hout : outcomes attempt = .status c)
    (hc : 400 ≤ c ∧ c < 500 ∧ c ≠ 408) :
    Client.push_attempts base maxD outcomes attempt r = (false, []) := by
  obtain ⟨m, rfl⟩ : ∃ m, r = m + 1 := ⟨r - 1, by omega⟩
  have hns : ¬ (c = 200 ∨ c = 201 ∨ c = 202) := by omega
  simp [Client.push_attempts, hout, hns, hc]

/-- Auxiliary for C6: a retryable outcome on the last permitted attempt ends
the loop with `False` and no further backoff. -/
theorem push_attempts_last_retryable (base maxD : ℚ)
    (outcomes : Nat → Client.AttemptOutcome) (attempt : Nat)
    (h : Client.retryable (outcomes attempt) = true) :
    Client.push_attempts base maxD outcomes attempt 1 = (false, []) := by
  cases hout : outcomes attempt with
  | status c =>
    rw [hout] at h
    simp only [Client.retryable, decide_eq_true_eq] at h
    simp [Client.push_attempts, hout, h.1, h.2]
  | netErr => simp [Client.push_attempts, hout]
  | exn => rw [hout] at h; simp [Client.retryable] at h

/-- Claim C6 (amended): for every batch push on a closed circuit with a
nonempty batch, a 200/201/202 response yields success; a 4xx response other
than 408 yields failure with no further attempts; any other outcome —
5xx, 408, other statuses (including the remaining 2xx codes), or a network
error — is retried up to `max_attempts`, a delay of
`min(max_delay, base·2^(attempt-1))` being slept before each retry. -/
theorem push_batch_retry_policy (maxA : Nat) (base maxD : ℚ)
    (outcomes : Nat → Client.AttemptOutcome) :
    (∀ k c, k < maxA →
      (∀ j, j < k → Client.retryable (outcomes (1 + j)) = true) →
      outcomes (1 + k) = .status c → (c = 200 ∨ c = 201 ∨ c = 202) →
      Client.push_batch false false maxA base maxD outcomes =
        (true, (List.range k).map (fun j => Client.retry_delay base maxD (1 + j)))) ∧
    (∀ k c, k < maxA →
      (∀ j, j < k → Client.retryable (outcomes (1 + j)) = true) →
      outcomes (1 + k) = .status c → (400 ≤ c ∧ c < 500 ∧ c ≠ 408) →
      Client.push_batch false false maxA base maxD outcomes =
        (false, (List.range k).map (fun j => Client.retry_delay base maxD (1 + j)))) ∧
    (0 < maxA →
      (∀ j, j < maxA → Client.retryable (outcomes (1 + j)) = true) →
      Client.push_batch false false maxA base maxD outcomes =
        (false, (List.range (maxA - 1)).map (fun j => Client.retry_delay base maxD (1 + j)))) := by
  refine ⟨?_, ?_, ?_⟩
  · intro k c hk hall hout hc
    rw [Client.push_batch, if_neg (by simp), if_neg (by simp),
        push_attempts_skip base maxD outcomes k maxA 1 hk hall,
        push_attempts_success base maxD outcomes (1 + k) (maxA - k) c (by omega) hout hc]
    simp
  · intro k c hk hall hout hc
    rw [Client.push_batch, if_neg (by simp), if_neg (by simp),
        push_attempts_skip base maxD outcomes k maxA 1 hk hall,
        push_attempts_fatal base maxD outcomes (1 + k) (maxA - k) c (by omega) hout hc]
    simp
  · intro hpos hall
    rcases Nat.eq_or_lt_of_le hpos with h1 | h1
    · rw [Client.push_batch, if_neg (by simp), if_neg (by simp), ← h1,
          push_attempts_last_retryable base maxD outcomes 1 (hall 0 (by omega))]
      simp [← h1]
    · rw [Client.push_batch, if_neg (by simp), if_neg (by simp),
          push_attempts_skip base maxD outcomes (maxA - 1) maxA 1 (by omega)
            (fun j hj => hall j (by omega)),
          show maxA - (maxA - 1) = 1 by omega,
          push_attempts_last_retryable base maxD outcomes (1 + (maxA - 1))
            (hall (maxA - 1) (by omega))]
      simp

/-- Witness for C6: with `max_attempts = 2`, `base = 1 s`, `max_delay = 10 s`:
a network error then a 200 gives success after one 1-second backoff; an
immediate 404 fails with no retry; two network errors exhaust the attempts
with a single backoff. -/
theorem push_batch_retry_policy_witness :
    Client.push_batch false false 2 1 10
        (fun n => if n = 1 then .netErr else .status 200) =
      (true, [Client.retry_delay 1 10 1]) ∧
    Client.push_batch false false 2 1 10 (fun _ => .status 404) =
      (false, []) ∧
    Client.push_batch false false 2 1 10 (fun _ => .netErr) =
      (false, [Client.retry_delay 1 10 1]) := by
  refine ⟨?_, ?_, ?_⟩
  · have h := (push_batch_retry_policy 2 1 10
        (fun n => if n = 1 then .netErr else .status 200)).1 1 200
      (by omega) (fun j hj => by interval_cases j; decide) (by decide) (by omega)
    simpa using h
  · have h := (push_batch_retry_policy 2 1 10 (fun _ => .status 404)).2.1 0 404
      (by omega) (fun j hj => by omega) rfl (by omega)
    simpa using h
  · have h := (push_batch_retry_policy 2 1 10 (fun _ => .netErr)).2.2
      (by omega) (fun j hj => by decide)
    simpa using h

/-- Auxiliary for C7: the verification loop accepts every chain produced by
`audit_log` folds, from any starting hash and line number. -/
theorem verify_build_chain_from (H : String → String) :
    ∀ (es : List Audit.AuditEntry) (prev : String) (k : Nat),
    Audit.verify_from H prev k (Audit.build_chain_from H prev es) = (true, none) := by
  intro es
  induction es with
  | nil => intro prev k; rfl
  | cons e es ih =>
    intro prev k
    simp only [Audit.build_chain_from, Audit.verify_from, Audit.audit_log_record]
    rw [if_neg (by simp), if_neg (by simp [Audit.audit_log_record])]
    exact ih _ _

/-- Auxiliary for C7: every record of a built chain stores the hash
recomputed from its own payload and `prev_hash`. -/
theorem chain_hash_formula (H : String → String) :
    ∀ (es : List Audit.AuditEntry) (prev : String) (i : Nat),
    i < (Audit.build_chain_from H prev es).length →
    ((Audit.build_chain_from H prev es).getD i default).hash =
      Audit.compute_hash H ((Audit.build_chain_from H prev es).getD i default).payload
        ((Audit.build_chain_from H prev es).getD i default).prev_hash := by
  intro es
  induction es with
  | nil => intro prev i h; simp [Audit.build_chain_from] at h
  | cons e es ih =>
    intro prev i h
    cases i with
    | zero => simp [Audit.build_chain_from, Audit.audit_log_record]
    | succ i =>
      simp only [Audit.build_chain_from, List.getD_cons_succ]
      exact ih _ i (by
        simpa [Audit.build_chain_from] using Nat.lt_of_succ_lt_succ h)

/-- Auxiliary for C7: the head of a built chain links to the starting
hash. -/
theorem chain_head_prev (H : String → String) (es : List Audit.AuditEntry)
    (prev : String) (h : 0 < (Audit.build_chain_from H prev es).length) :
    ((Audit.build_chain_from H prev es).getD 0 default).prev_hash = prev := by
  cases es with
  | nil => simp [Audit.build_chain_from] at h
  | cons e es => simp [Audit.build_chain_from, Audit.audit_log_record]

/-- Auxiliary for C7: each record of a built chain links to the hash of its
predecessor. -/
theorem chain_linkage (H : String → String) :
    ∀ (es : List Audit.AuditEntry) (prev : String) (i : Nat),
    i + 1 < (Audit.build_chain_from H prev es).length →
    ((Audit.build_chain_from H prev es).getD (i + 1) default).prev_hash =
      ((Audit.build_chain_from H prev es).getD i default).hash := by
  intro es
  induction es with
  | nil => intro prev i h; simp [Audit.build_chain_from] at h
  | cons e es ih =>
    intro prev i h
    have hlen : i < (Audit.build_chain_from H
        (Audit.audit_log_record H prev e).hash es).length := by
      simpa [Audit.build_chain_from] using Nat.lt_of_succ_lt_succ h
    cases i with
    | zero =>
      simp only [Audit.build_chain_from, List.getD_cons_succ, List.getD_cons_zero]
      exact chain_head_prev H es _ hlen
    | succ i =>
      simp only [Audit.build_chain_from, List.getD_cons_succ]
      exact ih _ i hlen

/-- Auxiliary for C7: replacing record `i` of a built chain by a different
record that keeps the stored hash but whose recomputed hash no longer
matches makes verification fail exactly at that record (1-based line
`k + i`). -/
theorem verify_set_tampered (H : String → String) :
    ∀ (es : List Audit.AuditEntry) (prev : String) (k i : Nat)
      (r' : Audit.AuditRecord),
    i < (Audit.build_chain_from H prev es).length →
    (r'.prev_hash = ((Audit.build_chain_from H prev es).getD i default).prev_hash →
      Audit.compute_hash H r'.payload r'.prev_hash ≠ r'.hash) →
    Audit.verify_from H prev k ((Audit.build_chain_from H prev es).set i r') =
      (false, some (k + i)) := by
  intro es
  induction es with
  | nil => intro prev k i r' h _; simp [Audit.build_chain_from] at h
  | cons e es ih =>
    intro prev k i r' h hne
    cases i with
    | zero =>
      simp only [Audit.build_chain_from, List.set_cons_zero]
      by_cases hprev : r'.prev_hash = prev
      · have hx := hne (by simp [Audit.build_chain_from, Audit.audit_log_record, hprev])
        rw [hprev] at hx
        simp only [Audit.verify_from]
        rw [if_neg (by simp [hprev]), if_pos (fun hh => hx hh.symm)]
        simp
      · simp only [Audit.verify_from]
        rw [if_pos hprev]
        simp
    | succ i =>
      simp only [Audit.build_chain_from, List.set_cons_succ, Audit.verify_from]
      rw [if_neg (by simp [Audit.audit_log_record]),
          if_neg (by simp [Audit.audit_log_record])]
      have hlen : i < (Audit.build_chain_from H
          (Audit.audit_log_record H prev e).hash es).length := by
        simpa [Audit.build_chain_from] using Nat.lt_of_succ_lt_succ h
      have hne' := by
        simpa only [Audit.build_chain_from, List.getD_cons_succ] using hne
      rw [ih _ (k + 1) i r' hlen hne']
      have : k + 1 + i = k + (i + 1) := by omega
      rw [this]

/-- Claim C7: for every sequence of `audit_log` calls starting from an empty
log, the first entry links to the literal `"GENESIS"`, entry `N` links to the
hash of entry `N-1`, every stored hash equals the truncated SHA-256 (the
uninterpreted `H`) of the canonical entry without its `hash` key concatenated
with the previous hash, `verify_audit_chain` answers `(True, None)` on the
untampered log, and replacing any single entry — keeping its recorded hash —
by a modified entry whose recomputed hash no longer matches makes
verification answer `(False, line)` at that entry, leaving it and all its
successors unvalidated. -/
theorem audit_chain_invariants (H : String → String) (es : List Audit.AuditEntry) :
    (0 < (Audit.build_chain H es).length →
      ((Audit.build_chain H es).getD 0 default).prev_hash = "GENESIS") ∧
    (∀ i, i + 1 < (Audit.build_chain H es).length →
      ((Audit.build_chain H es).getD (i + 1) default).prev_hash =
        ((Audit.build_chain H es).getD i default).hash) ∧
    (∀ i, i < (Audit.build_chain H es).length →
      ((Audit.build_chain H es).getD i default).hash =
        Audit.compute_hash H ((Audit.build_chain H es).getD i default).payload
          ((Audit.build_chain H es).getD i default).prev_hash) ∧
    Audit.verify_audit_chain H (Audit.build_chain H es) = (true, none) ∧
    (∀ (i : Nat) (r' : Audit.AuditRecord),
      i < (Audit.build_chain H es).length →
      r'.hash = ((Audit.build_chain H es).getD i default).hash →
      r' ≠ (Audit.build_chain H es).getD i default →
      (r'.prev_hash = ((Audit.build_chain H es).getD i default).prev_hash →
        Audit.compute_hash H r'.payload r'.prev_hash ≠ r'.hash) →
      Audit.verify_audit_chain H ((Audit.build_chain H es).set i r') =
        (false, some (i + 1))) := by
  refine ⟨chain_head_prev H es "GENESIS", chain_linkage H es "GENESIS",
    chain_hash_formula H es "GENESIS", verify_build_chain_from H es "GENESIS" 1,
    ?_⟩
  intro i r' hlen _ _ hne
  have h2 := verify_set_tampered H es "GENESIS" 1 i r'
    (by simpa [Audit.build_chain] using hlen)
    (by simpa [Audit.build_chain] using hne)
  simpa [Audit.verify_audit_chain, Audit.build_chain, Nat.add_comm] using h2

set_option maxRecDepth 8192 in
/-- Witness for C7: a two-entry log built with the identity standing in for
the truncated digest starts at `GENESIS`, links entry 1 to entry 0, verifies
clean, and verification fails at line 1 when entry 0 is replaced by a
payload-modified record that keeps the stored hash. -/
theorem audit_chain_invariants_witness :
    ((Audit.build_chain (fun s => s) [Audit.sampleEntry1, Audit.sampleEntry2]).getD 0
        default).prev_hash = "GENESIS" ∧
    ((Audit.build_chain (fun s => s) [Audit.sampleEntry1, Audit.sampleEntry2]).getD 1
        default).prev_hash =
      ((Audit.build_chain (fun s => s) [Audit.sampleEntry1, Audit.sampleEntry2]).getD 0
        default).hash ∧
    Audit.verify_audit_chain (fun s => s)
        (Audit.build_chain (fun s => s) [Audit.sampleEntry1, Audit.sampleEntry2]) =
      (true, none) ∧
    Audit.verify_audit_chain (fun s => s)
        ((Audit.build_chain (fun s => s) [Audit.sampleEntry1, Audit.sampleEntry2]).set 0
          { payload := { Audit.sampleEntry1 with user := "mallory" },
            prev_hash := "GENESIS",
            hash := ((Audit.build_chain (fun s => s)
                [Audit.sampleEntry1, Audit.sampleEntry2]).getD 0 default).hash }) =
      (false, some 1) := by
  have h := audit_chain_invariants (fun s => s) [Audit.sampleEntry1, Audit.sampleEntry2]
  refine ⟨h.1 (by decide), h.2.1 0 (by decide), h.2.2.2.1, ?_⟩
  exact h.2.2.2.2 0 _ (by decide) rfl (by decide) (fun _ => by decide)

/-- Counterexample for C5 as stated: after failing over to the secondary at
monotonic time 0 (cooldown until 120 s), a push at time 10 on which the
secondary fails and the recovered primary succeeds moves `active_index`
straight back to 0 — the controller returns to the primary well inside the
120 s stickiness window. -/
theorem failover_returns_to_primary_within_stickiness :
    (Failover.fc_push 2 (fun i => i == 1) 0 Failover.initState).2.active_index = 1 ∧
    (Failover.fc_push 2 (fun i => i == 1) 0 Failover.initState).2.cooldown_until =
      0 + Failover.STICKINESS_SEC ∧
    (10 : ℚ) < 0 + Failover.STICKINESS_SEC ∧
    (Failover.fc_push 2 (fun i => i == 0) 10
        (Failover.fc_push 2 (fun i => i == 1) 0 Failover.initState).2).2.active_index
      = 0 := by
  have hr2 : List.range 2 = [0, 1] := rfl
  have h1 : Failover.fc_push 2 (fun i => i == 1) 0 Failover.initState =
      ((true, some 1),
       { active_index := 1, cooldown_until := 0 + Failover.STICKINESS_SEC,
         consecutive_successes := 0, consecutive_failures := 1,
         backoff_sec := Failover.INITIAL_BACKOFF }) := by
    simp [Failover.fc_push, Failover.initState, Failover.record_failure,
          Failover.failover_to, Failover.first_fallback, hr2]
  have h2 : Failover.fc_push 2 (fun i => i == 0) 10
      (Failover.fc_push 2 (fun i => i == 1) 0 Failover.initState).2 =
      ((true, some 0),
       { active_index := 0, cooldown_until := 10 + Failover.STICKINESS_SEC,
         consecutive_successes := 0, consecutive_failures := 2,
         backoff_sec := Failover.INITIAL_BACKOFF }) := by
    rw [h1]
    simp [Failover.fc_push, Failover.record_failure, Failover.failover_to,
          Failover.first_fallback, hr2]
  refine ⟨by rw [h1], by rw [h1], ?_, by rw [h2]⟩
  norm_num [Failover.STICKINESS_SEC]

/-- Auxiliary for C5: a successful push on the active target at or before
`cooldown_until` changes neither the active index nor the stickiness
deadline. -/
theorem fc_push_success_no_promotion (n : Nat) (res : Nat → Bool) (now : ℚ)
    (st : Failover.FCState) (hres : res st.active_index = true)
    (hnow : now ≤ st.cooldown_until) :
    (Failover.fc_push n res now st).2.active_index = st.active_index ∧
    (Failover.fc_push n res now st).2.cooldown_until = st.cooldown_until := by
  by_cases hn : n = 0
  · simp [Failover.fc_push, hn]
  · have hlt : ¬ (now > st.cooldown_until) := not_lt.mpr hnow
    simp [Failover.fc_push, hn, hres, Failover.record_success, Failover.can_promote, hlt]

/-- Auxiliary for C5: a whole run of pushes that all succeed on the active
target at instants not beyond `cooldown_until` leaves the active index and
the deadline untouched. -/
theorem fc_push_seq_sticky (n : Nat) :
    ∀ (steps : List ((Nat → Bool) × ℚ)) (st : Failover.FCState),
    (∀ p ∈ steps, p.1 st.active_index = true ∧ p.2 ≤ st.cooldown_until) →
    (Failover.fc_push_seq n st steps).active_index = st.active_index ∧
    (Failover.fc_push_seq n st steps).cooldown_until = st.cooldown_until := by
  intro steps
  induction steps with
  | nil => intro st _; exact ⟨rfl, rfl⟩
  | cons p rest ih =>
    intro st hall
    have h0 := hall p (by simp)
    have hstep := fc_push_success_no_promotion n p.1 p.2 st h0.1 h0.2
    have hrest := ih (Failover.fc_push n p.1 p.2 st).2 (fun q hq => by
      rw [hstep.1, hstep.2]
      exact hall q (by simp [hq]))
    simp only [Failover.fc_push_seq]
    rw [hrest.1, hrest.2, hstep.1, hstep.2]
    exact ⟨rfl, rfl⟩

/-- Claim C5 (amended): the first successful push to a fallback target sets
`active_index` to that target and `cooldown_until` to `now + 120`; after a
push that succeeds on the active secondary, the controller is back on
index 0 exactly when the consecutive successes reach 5 and the monotonic
clock is strictly past `cooldown_until`; consequently, while every push
succeeds on the active fallback target and happens no later than
`cooldown_until`, the controller does not return to the primary — but a push
on which the fallback target itself fails may fail over back to index 0
before the 120 s have elapsed (the counterexample above). -/
theorem failover_stickiness (n : Nat) (res : Nat → Bool) (now : ℚ)
    (st : Failover.FCState) :
    (∀ i, res st.active_index = false →
      Failover.first_fallback n st.active_index res = some i →
      (Failover.fc_push n res now st).1 = (true, some i) ∧
      (Failover.fc_push n res now st).2.active_index = i ∧
      (Failover.fc_push n res now st).2.cooldown_until =
        now + Failover.STICKINESS_SEC) ∧
    (res st.active_index = true → n ≠ 0 → st.active_index ≠ 0 →
      ((Failover.fc_push n res now st).2.active_index = 0 ↔
        st.consecutive_successes + 1 ≥ Failover.PROMOTION_THRESHOLD ∧
          now > st.cooldown_until)) ∧
    (∀ steps : List ((Nat → Bool) × ℚ),
      (∀ p ∈ steps, p.1 st.active_index = true ∧ p.2 ≤ st.cooldown_until) →
      (Failover.fc_push_seq n st steps).active_index = st.active_index) := by
  refine ⟨?_, ?_, fun steps hsteps => (fc_push_seq_sticky n steps st hsteps).1⟩
  · intro i hres hfb
    have hn : n ≠ 0 := by
      intro h
      rw [h] at hfb
      simp [Failover.first_fallback] at hfb
    simp [Failover.fc_push, hn, hres, hfb, Failover.failover_to]
  · intro hres hn h0
    have hst : (Failover.fc_push n res now st).2 = Failover.record_success now st := by
      simp [Failover.fc_push, hn, hres]
    rw [hst]
    unfold Failover.record_success
    by_cases hc : st.consecutive_successes + 1 ≥ Failover.PROMOTION_THRESHOLD ∧
        now > st.cooldown_until
    · rw [if_pos ⟨Nat.pos_of_ne_zero h0, by
        simp [Failover.can_promote, hc.1, hc.2]⟩]
      simp [Failover.promote_to_primary, hc]
    · rw [if_neg (by
        simp only [Failover.can_promote]
        rintro ⟨hpos, hcp⟩
        rw [Bool.and_eq_true, decide_eq_true_eq, decide_eq_true_eq] at hcp
        exact hc hcp)]
      constructor
      · intro hx; exact absurd hx h0
      · intro hx; exact absurd hx hc

/-- Witness for C5: on two targets, a failed primary with a successful
secondary fails over to index 1 with a 120 s deadline; on the secondary with
one prior success, a push at time 5 does not promote (5 ≤ 120); a
sustained-success run at times within the deadline keeps index 1. -/
theorem failover_stickiness_witness :
    ((Failover.fc_push 2 (fun i => i == 1) 0 Failover.initState).1 = (true, some 1) ∧
     (Failover.fc_push 2 (fun i => i == 1) 0 Failover.initState).2.active_index = 1 ∧
     (Failover.fc_push 2 (fun i => i == 1) 0 Failover.initState).2.cooldown_until =
       0 + Failover.STICKINESS_SEC) ∧
    ((Failover.fc_push 2 (fun _ => true) 5
        { active_index := 1, cooldown_until := 120, consecutive_successes := 0,
          consecutive_failures := 1,
          backoff_sec := Failover.INITIAL_BACKOFF }).2.active_index = 0 ↔
      (0 + 1 ≥ Failover.PROMOTION_THRESHOLD ∧ (5 : ℚ) > 120)) ∧
    (Failover.fc_push_seq 2
        { active_index := 1, cooldown_until := 120, consecutive_successes := 0,
          consecutive_failures := 1,
          backoff_sec := Failover.INITIAL_BACKOFF }
        [(fun _ => true, 10), (fun _ => true, 120)]).active_index = 1 := by
  refine ⟨?_, ?_, ?_⟩
  · exact (failover_stickiness 2 (fun i => i == 1) 0 Failover.initState).1 1
      (by decide) (by decide)
  · exact (failover_stickiness 2 (fun _ => true) 5 _).2.1 rfl (by decide) (by decide)
  · exact (failover_stickiness 2 (fun _ => true) 10 _).2.2
      [(fun _ => true, 10), (fun _ => true, 120)]
      (by
        intro p hp
        simp only [List.mem_cons, List.not_mem_nil, or_false] at hp
        rcases hp with rfl | rfl
        · exact ⟨rfl, by norm_num⟩
        · exact ⟨rfl, by norm_num⟩)

/-- Counterexample for C2 as stated: the same metric processed in a second
batch 10 s later — inside the 180 s dedup TTL — is dropped by the Redis
pre-dedup: the store keeps exactly one row, but `metric_conflicts` stays
empty; the second arrival is only counted on the duplicate counter. -/
theorem duplicate_within_ttl_no_conflict_row :
    (Etl.process_batch 10 true
        (Etl.process_batch 0 true Etl.etlInit [Etl.sampleEtlMetric])
        [Etl.sampleEtlMetric]).conflictsTable = [] ∧
    (Etl.process_batch 10 true
        (Etl.process_batch 0 true Etl.etlInit [Etl.sampleEtlMetric])
        [Etl.sampleEtlMetric]).metricsTable.length = 1 ∧
    (Etl.process_batch 10 true
        (Etl.process_batch 0 true Etl.etlInit [Etl.sampleEtlMetric])
        [Etl.sampleEtlMetric]).duplicateCount = 1 := by
  decide

/-- Claim C2 (amended): a metric pushed twice through the ETL pipeline (same
`node_id` and timestamp, dedup enabled) always leaves exactly one row for
its `(time, node_id)` in the metrics table.  When the second arrival reaches
the database — its Redis dedup key having expired (at least 180 s later) —
exactly one row carrying the full payload and its source region is written
to `metric_conflicts`; when it arrives within the 180 s dedup TTL it is
dropped by the Redis pre-dedup and only the duplicate counter records it: no
conflict row is written. -/
theorem etl_duplicate_audit (m : Etl.EtlMetric) (now₁ now₂ : Int)
    (horder : now₁ ≤ now₂) :
    (Etl.process_batch now₁ true Etl.etlInit [m]).metricsTable = [Etl.to_row m] ∧
    (Etl.process_batch now₂ true (Etl.process_batch now₁ true Etl.etlInit [m])
        [m]).metricsTable = [Etl.to_row m] ∧
    (now₂ < now₁ + Etl.DEDUP_TTL_SEC →
      (Etl.process_batch now₂ true (Etl.process_batch now₁ true Etl.etlInit [m])
          [m]).conflictsTable = [] ∧
      (Etl.process_batch now₂ true (Etl.process_batch now₁ true Etl.etlInit [m])
          [m]).duplicateCount = 1) ∧
    (now₁ + Etl.DEDUP_TTL_SEC ≤ now₂ →
      (Etl.process_batch now₂ true (Etl.process_batch now₁ true Etl.etlInit [m])
          [m]).conflictsTable =
        [{ time := Etl.db_time m.timestamp, node_id := m.node_id, payload := m,
           ingest_region := m.source_region }] ∧
      (Etl.process_batch now₂ true (Etl.process_batch now₁ true Etl.etlInit [m])
          [m]).duplicateCount = 1) := by
  have h1 : Etl.process_batch now₁ true Etl.etlInit [m] =
      { dedupKeys := [(Etl.dedup_key m, now₁ + Etl.DEDUP_TTL_SEC)],
        metricsTable := [Etl.to_row m], conflictsTable := [],
        duplicateCount := 0 } := by
    simp [Etl.process_batch, Etl.dedupe_batch, Etl.etlInit,
          Etl.bulk_insert_with_audit, Etl.copy_violates, Etl.table_has_key,
          kv_exists, kv_setex]
  refine ⟨by rw [h1], ?_, ?_, ?_⟩
  · rw [h1]
    by_cases hc : now₂ < now₁ + Etl.DEDUP_TTL_SEC
    · simp [Etl.process_batch, Etl.dedupe_batch, kv_exists, hc]
    · simp [Etl.process_batch, Etl.dedupe_batch, kv_exists, kv_setex, hc,
            Etl.bulk_insert_with_audit, Etl.copy_violates, Etl.table_has_key,
            Etl.insert_row_audit, Etl.to_row]
  · intro hc
    rw [h1]
    constructor
    · simp [Etl.process_batch, Etl.dedupe_batch, kv_exists, hc]
    · simp [Etl.process_batch, Etl.dedupe_batch, kv_exists, hc]
  · intro hc
    have hc' : ¬ (now₂ < now₁ + Etl.DEDUP_TTL_SEC) := not_lt.mpr hc
    rw [h1]
    constructor
    · simp [Etl.process_batch, Etl.dedupe_batch, kv_exists, kv_setex, hc',
            Etl.bulk_insert_with_audit, Etl.copy_violates, Etl.table_has_key,
            Etl.insert_row_audit, Etl.to_row]
    · simp [Etl.process_batch, Etl.dedupe_batch, kv_exists, kv_setex, hc',
            Etl.bulk_insert_with_audit, Etl.copy_violates, Etl.table_has_key,
            Etl.insert_row_audit, Etl.to_row]

/-- Witness for C2: the sample metric replayed 200 s later (dedup key
expired) leaves one metrics row and exactly one conflict row carrying the
payload and its region. -/
theorem etl_duplicate_audit_witness :
    (Etl.process_batch 200 true (Etl.process_batch 0 true Etl.etlInit
        [Etl.sampleEtlMetric]) [Etl.sampleEtlMetric]).metricsTable =
      [Etl.to_row Etl.sampleEtlMetric] ∧
    (Etl.process_batch 200 true (Etl.process_batch 0 true Etl.etlInit
        [Etl.sampleEtlMetric]) [Etl.sampleEtlMetric]).conflictsTable =
      [{ time := Etl.db_time Etl.sampleEtlMetric.timestamp,
         node_id := Etl.sampleEtlMetric.node_id,
         payload := Etl.sampleEtlMetric,
         ingest_region := Etl.sampleEtlMetric.source_region }] := by
  have h := etl_duplicate_audit Etl.sampleEtlMetric 0 200 (by decide)
  exact ⟨h.2.1, (h.2.2.2 (by decide)).1⟩

/-- Claim C1: two authenticated `/ingest` requests carrying the same
`X-Batch-ID` within 600 s: the first sets `idempotency:batch:<batch_id>` with
a 600 s TTL and enqueues its metrics (one row per matching metric), the
second is answered with the already-processed 202 and changes nothing, so
the queue grows by exactly the size of the first batch. -/
theorem ingest_idempotent_batch
    (env : Gateway.GatewayEnv) (st : Gateway.RedisState) (now₁ now₂ : Int)
    (bid : String) (regionId₁ regionId₂ auth₁ auth₂ : Option String)
    (body₁ body₂ : String) (batch₁ batch₂ : Gateway.BatchPayload) (ok₂ : Bool)
    (hp₁ : env.parseBody body₁ = some batch₁)
    (hp₂ : env.parseBody body₂ = some batch₂)
    (ha₁ : Gateway.check_identity env auth₁ = none)
    (ha₂ : Gateway.check_identity env auth₂ = none)
    (hfresh : kv_exists st.kv now₁ ("idempotency:batch:" ++ bid) = false)
    (hregion : Gateway.resolve_region regionId₁ batch₁ ∈ env.allowedRegions ∨
               Gateway.resolve_region regionId₁ batch₁ = "unknown")
    (hnodes : ∀ m ∈ batch₁.metrics, m.node_id = batch₁.node_id)
    (h12 : now₂ < now₁ + 600) :
    (Gateway.ingest_batch env st now₁
        ⟨none, none, none, some bid, regionId₁, auth₁⟩ body₁ true).1 =
      .accepted batch₁.metrics.length (Gateway.resolve_region regionId₁ batch₁) ∧
    (Gateway.ingest_batch env st now₁
        ⟨none, none, none, some bid, regionId₁, auth₁⟩ body₁ true).2.kv =
      kv_setex st.kv now₁ 600 ("idempotency:batch:" ++ bid) ∧
    (Gateway.ingest_batch env st now₁
        ⟨none, none, none, some bid, regionId₁, auth₁⟩ body₁ true).2.queue.length =
      st.queue.length + batch₁.metrics.length ∧
    (Gateway.ingest_batch env
        (Gateway.ingest_batch env st now₁
          ⟨none, none, none, some bid, regionId₁, auth₁⟩ body₁ true).2 now₂
        ⟨none, none, none, some bid, regionId₂, auth₂⟩ body₂ ok₂).1 =
      .alreadyProcessed ∧
    (Gateway.ingest_batch env
        (Gateway.ingest_batch env st now₁
          ⟨none, none, none, some bid, regionId₁, auth₁⟩ body₁ true).2 now₂
        ⟨none, none, none, some bid, regionId₂, auth₂⟩ body₂ ok₂).2 =
      (Gateway.ingest_batch env st now₁
        ⟨none, none, none, some bid, regionId₁, auth₁⟩ body₁ true).2 := by
  have hneg : ¬ (Gateway.resolve_region regionId₁ batch₁ ∉ env.allowedRegions ∧
      Gateway.resolve_region regionId₁ batch₁ ≠ "unknown") := by tauto
  have hfil : batch₁.metrics.filter (fun m => m.node_id == batch₁.node_id) =
      batch₁.metrics :=
    List.filter_eq_self.mpr (fun m hm => by simp [hnodes m hm])
  have hsecond : kv_exists (kv_setex st.kv now₁ 600 ("idempotency:batch:" ++ bid))
      now₂ ("idempotency:batch:" ++ bid) = true := by
    simp [kv_exists, kv_setex, h12]
  refine ⟨?_, ?_, ?_, ?_, ?_⟩ <;>
    simp [Gateway.ingest_batch, Gateway.ingest_after_hmac, Gateway.batch_id_str,
          Gateway.enqueue_metrics, hp₁, hp₂, ha₁, ha₂, hfresh, hneg, hfil, hsecond]

/-- Witness for C1: the sample batch ingested twice 100 s apart with the
region header `gh-accra`: first response queues 1 metric, second is the
idempotent 202 and the state is unchanged. -/
theorem ingest_idempotent_batch_witness :
    (Gateway.ingest_batch Gateway.sampleEnv Gateway.emptyRedis 0
        ⟨none, none, none, some "b1", some "gh-accra", some Gateway.bearerSecret⟩
        "x" true).1 = .accepted 1 "gh-accra" ∧
    (Gateway.ingest_batch Gateway.sampleEnv
        (Gateway.ingest_batch Gateway.sampleEnv Gateway.emptyRedis 0
          ⟨none, none, none, some "b1", some "gh-accra", some Gateway.bearerSecret⟩
          "x" true).2 100
        ⟨none, none, none, some "b1", some "gh-accra", some Gateway.bearerSecret⟩
        "x" true).1 = .alreadyProcessed := by
  have h := ingest_idempotent_batch Gateway.sampleEnv Gateway.emptyRedis 0 100 "b1"
    (some "gh-accra") (some "gh-accra") (some Gateway.bearerSecret)
    (some Gateway.bearerSecret) "x" "x" Gateway.sampleBatch Gateway.sampleBatch true
    rfl rfl (by decide) (by decide) (by decide) (by decide) (by decide) (by decide)
  exact ⟨h.1, h.2.2.2.1⟩

/-- Claim C9: the idempotency key is set before the enqueue and survives an
enqueue failure: the first request fails its pipeline and is answered 500
with nothing queued, yet the key is in place, so a retry of the same batch
within 600 s receives the already-processed 202 although none of its metrics
were ever enqueued. -/
theorem ingest_enqueue_failure_not_atomic
    (env : Gateway.GatewayEnv) (st : Gateway.RedisState) (now₁ now₂ : Int)
    (bid : String) (regionId₁ regionId₂ auth₁ auth₂ : Option String)
    (body₁ body₂ : String) (batch₁ batch₂ : Gateway.BatchPayload) (ok₂ : Bool)
    (hp₁ : env.parseBody body₁ = some batch₁)
    (hp₂ : env.parseBody body₂ = some batch₂)
    (ha₁ : Gateway.check_identity env auth₁ = none)
    (ha₂ : Gateway.check_identity env auth₂ = none)
    (hfresh : kv_exists st.kv now₁ ("idempotency:batch:" ++ bid) = false)
    (hregion : Gateway.resolve_region regionId₁ batch₁ ∈ env.allowedRegions ∨
               Gateway.resolve_region regionId₁ batch₁ = "unknown")
    (h12 : now₂ < now₁ + 600) :
    (Gateway.ingest_batch env st now₁
        ⟨none, none, none, some bid, regionId₁, auth₁⟩ body₁ false).1 =
      .error 500 "Ingestion failed" ∧
    (Gateway.ingest_batch env st now₁
        ⟨none, none, none, some bid, regionId₁, auth₁⟩ body₁ false).2.kv =
      kv_setex st.kv now₁ 600 ("idempotency:batch:" ++ bid) ∧
    (Gateway.ingest_batch env st now₁
        ⟨none, none, none, some bid, regionId₁, auth₁⟩ body₁ false).2.queue =
      st.queue ∧
    (Gateway.ingest_batch env
        (Gateway.ingest_batch env st now₁
          ⟨none, none, none, some bid, regionId₁, auth₁⟩ body₁ false).2 now₂
        ⟨none, none, none, some bid, regionId₂, auth₂⟩ body₂ ok₂).1 =
      .alreadyProcessed ∧
    (Gateway.ingest_batch env
        (Gateway.ingest_batch env st now₁
          ⟨none, none, none, some bid, regionId₁, auth₁⟩ body₁ false).2 now₂
        ⟨none, none, none, some bid, regionId₂, auth₂⟩ body₂ ok₂).2.queue =
      st.queue := by
  have hneg : ¬ (Gateway.resolve_region regionId₁ batch₁ ∉ env.allowedRegions ∧
      Gateway.resolve_region regionId₁ batch₁ ≠ "unknown") := by tauto
  have hsecond : kv_exists (kv_setex st.kv now₁ 600 ("idempotency:batch:" ++ bid))
      now₂ ("idempotency:batch:" ++ bid) = true := by
    simp [kv_exists, kv_setex, h12]
  refine ⟨?_, ?_, ?_, ?_, ?_⟩ <;>
    simp [Gateway.ingest_batch, Gateway.ingest_after_hmac, Gateway.batch_id_str,
          Gateway.enqueue_metrics, hp₁, hp₂, ha₁, ha₂, hfresh, hneg, hsecond]

/-- Witness for C9: the sample batch with a failing pipeline gets a 500, and
its 100 s-later retry gets the idempotent 202 with the queue still empty. -/
theorem ingest_enqueue_failure_not_atomic_witness :
    (Gateway.ingest_batch Gateway.sampleEnv Gateway.emptyRedis 0
        ⟨none, none, none, some "b1", some "gh-accra", some Gateway.bearerSecret⟩
        "x" false).1 = .error 500 "Ingestion failed" ∧
    (Gateway.ingest_batch Gateway.sampleEnv
        (Gateway.ingest_batch Gateway.sampleEnv Gateway.emptyRedis 0
          ⟨none, none, none, some "b1", some "gh-accra", some Gateway.bearerSecret⟩
          "x" false).2 100
        ⟨none, none, none, some "b1", some "gh-accra", some Gateway.bearerSecret⟩
        "x" true).1 = .alreadyProcessed ∧
    (Gateway.ingest_batch Gateway.sampleEnv
        (Gateway.ingest_batch Gateway.sampleEnv Gateway.emptyRedis 0
          ⟨none, none, none, some "b1", some "gh-accra", some Gateway.bearerSecret⟩
          "x" false).2 100
        ⟨none, none, none, some "b1", some "gh-accra", some Gateway.bearerSecret⟩
        "x" true).2.queue = [] := by
  have h := ingest_enqueue_failure_not_atomic Gateway.sampleEnv Gateway.emptyRedis 0 100
    "b1" (some "gh-accra") (some "gh-accra") (some Gateway.bearerSecret)
    (some Gateway.bearerSecret) "x" "x" Gateway.sampleBatch Gateway.sampleBatch true
    rfl rfl (by decide) (by decide) (by decide) (by decide) (by decide)
  exact ⟨h.1, h.2.2.2.1, h.2.2.2.2⟩

/-- Counterexample for C4 as stated: an authenticated batch with no region
header and no metrics resolves to the literal `unknown`, which is not in the
allowed-regions list of this strict central node — yet the gateway accepts
it with 202 instead of rejecting with 400 `INVALID_REGION`: the code exempts
`unknown` from strict validation. -/
theorem unknown_region_not_rejected :
    Gateway.sampleEnv.validationMode = "strict" ∧
    Gateway.sampleEnv.nodeRole = "central" ∧
    Gateway.resolve_region none Gateway.emptyBatch = "unknown" ∧
    "unknown" ∉ Gateway.sampleEnv.allowedRegions ∧
    (Gateway.ingest_batch Gateway.sampleEnv Gateway.emptyRedis 0
        ⟨none, none, none, some "b2", none, some Gateway.bearerSecret⟩
        "emptybatch" true).1 = .accepted 0 "unknown" := by
  decide

/-- Claim C4 (amended): the source region is resolved with precedence
`X-Region-ID` header, then `lower(country)-lower(region with spaces as
hyphens)` from the first metric, then the literal `unknown`; and whenever the
resolved region is not in the allowed-regions list, is not the literal
`unknown`, the node is central and validation is strict, the gateway answers
400 `INVALID_REGION` and enqueues nothing. -/
theorem region_resolution_and_validation :
    (∀ (r : String) (batch : Gateway.BatchPayload), r ≠ "" →
      Gateway.resolve_region (some r) batch = r) ∧
    (∀ (batch : Gateway.BatchPayload) (m : Gateway.Metric)
       (ms : List Gateway.Metric), batch.metrics = m :: ms →
      Gateway.resolve_region none batch =
        pyLower (if m.country = "" then "xx" else m.country) ++ "-" ++
        pyReplaceChar ' ' ['-']
          (pyLower (if m.region = "" then "unknown" else m.region))) ∧
    (∀ batch : Gateway.BatchPayload, batch.metrics = [] →
      Gateway.resolve_region none batch = "unknown") ∧
    (∀ (env : Gateway.GatewayEnv) (st : Gateway.RedisState) (now : Int)
       (bid : String) (regionId auth : Option String) (body : String)
       (batch : Gateway.BatchPayload) (pipelineOk : Bool),
      env.parseBody body = some batch →
      Gateway.check_identity env auth = none →
      kv_exists st.kv now ("idempotency:batch:" ++ bid) = false →
      Gateway.resolve_region regionId batch ∉ env.allowedRegions →
      Gateway.resolve_region regionId batch ≠ "unknown" →
      env.validationMode = "strict" →
      env.nodeRole = "central" →
      (Gateway.ingest_batch env st now
          ⟨none, none, none, some bid, regionId, auth⟩ body pipelineOk).1 =
        .error 400 "INVALID_REGION" ∧
      (Gateway.ingest_batch env st now
          ⟨none, none, none, some bid, regionId, auth⟩ body pipelineOk).2.queue =
        st.queue) := by
  refine ⟨?_, ?_, ?_, ?_⟩
  · intro r batch hr
    simp [Gateway.resolve_region, hr]
  · intro batch m ms hm
    simp [Gateway.resolve_region, hm, Gateway.region_from_metric]
  · intro batch hm
    simp [Gateway.resolve_region, hm]
  · intro env st now bid regionId auth body batch pipelineOk hp ha hfresh hout hunk
      hmode hrole
    constructor <;>
      simp [Gateway.ingest_batch, Gateway.ingest_after_hmac, Gateway.batch_id_str,
            hp, ha, hfresh, hout, hunk, hmode, hrole]

/-- Witness for C4: the header wins over derivation; the sample metric
derives `gh-greater-accra`; an empty batch derives `unknown`; and the
derived `gh-greater-accra` — absent from the allowed list of the strict
central sample node — draws a 400 `INVALID_REGION` with nothing queued. -/
theorem region_resolution_and_validation_witness :
    Gateway.resolve_region (some "ng-lagos") Gateway.sampleBatch = "ng-lagos" ∧
    Gateway.resolve_region none Gateway.sampleBatch = "gh-greater-accra" ∧
    Gateway.resolve_region none Gateway.emptyBatch = "unknown" ∧
    (Gateway.ingest_batch Gateway.sampleEnv Gateway.emptyRedis 0
        ⟨none, none, none, some "b3", none, some Gateway.bearerSecret⟩
        "x" true).1 = .error 400 "INVALID_REGION" ∧
    (Gateway.ingest_batch Gateway.sampleEnv Gateway.emptyRedis 0
        ⟨none, none, none, some "b3", none, some Gateway.bearerSecret⟩
        "x" true).2.queue = [] := by
  have h := region_resolution_and_validation
  have h4 := h.2.2.2 Gateway.sampleEnv Gateway.emptyRedis 0 "b3" none
    (some Gateway.bearerSecret) "x" Gateway.sampleBatch true
    rfl (by decide) (by decide) (by decide) (by decide) rfl rfl
  refine ⟨h.1 "ng-lagos" Gateway.sampleBatch (by decide), ?_, ?_, h4.1, h4.2⟩
  · have h2 := h.2.1 Gateway.sampleBatch Gateway.sampleMetric [] rfl
    simpa using h2.trans (by decide)
  · exact h.2.2.1 Gateway.emptyBatch rfl

end FiberStack
